import Mathlib

/-!
Verification development for the support-level classifier and the mock
telemetry generators of `demos/1_obervability_streamlitVIEW.app.py`.

Scores are modelled as rationals.  Timestamps are modelled as rational
second-offsets from the generator's base time (the source computes
`base_time = now - 5 minutes` and adds `datetime.timedelta` offsets to it;
only the offsets matter to the stated properties).  The f-string payloads of
the generated rows interpolate numbers into JSON text; they are modelled as
structured values carrying exactly the interpolated data, since the stated
properties never depend on the decimal rendering of a number.  The calls to
`random.uniform` and `random.randint` are modelled by injected draw streams
`u : ℕ → ℚ` (unit-interval draws) and `z : ℕ → ℤ`.
-/

/-- The weak-area list built by `categorize_support_level` (source lines
43-49): an area name is appended when its score is strictly below 70, in the
fixed evaluation order Reading, Math, Focus. -/
def weakAreas (reading_score math_score focus_score : ℚ) : List String :=
  (if reading_score < 70 then ["Reading"] else []) ++
  (if math_score < 70 then ["Math"] else []) ++
  (if focus_score < 70 then ["Focus"] else [])

/-- The average `(reading_score + math_score + focus_score) / 3` (source
line 51). -/
def avgScore (reading_score math_score focus_score : ℚ) : ℚ :=
  (reading_score + math_score + focus_score) / 3

/-- The tier chosen from the average (source lines 52-57). -/
def supportTier (reading_score math_score focus_score : ℚ) : String :=
  if avgScore reading_score math_score focus_score < 50 then "Intensive"
  else if avgScore reading_score math_score focus_score < 70 then "Moderate"
  else "Light Touch"

/-- `categorize_support_level` (source lines 41-59): the returned f-string
`"{level}: {', '.join(areas) if areas else 'General Support'}"`. -/
def categorize_support_level (reading_score math_score focus_score : ℚ) : String :=
  supportTier reading_score math_score focus_score ++ ": " ++
    (if weakAreas reading_score math_score focus_score = [] then "General Support"
     else String.intercalate ", " (weakAreas reading_score math_score focus_score))

/-- The inline weak-area count of `generate_mock_traces` (source line 124):
`sum([1 for s in [reading, math, focus] if s < 70])`. -/
def traceAreasCount (reading_score math_score focus_score : ℚ) : ℕ :=
  ([reading_score, math_score, focus_score].filter (fun s => s < 70)).length

/-- Python's `str.split` with a single-character separator, modelled on the
character list of the string (structural recursion so it evaluates). -/
def splitOnChar (sep : Char) : List Char → List (List Char)
  | [] => [[]]
  | c :: cs =>
    let rest := splitOnChar sep cs
    if c = sep then [] :: rest
    else (c :: rest.headD []) :: rest.tail

/-- The level field embedded by `generate_mock_traces` (source line 129):
`categorize_support_level(...).split(":")[0]`. -/
def traceLevelField (reading_score math_score focus_score : ℚ) : String :=
  String.mk ((splitOnChar ':'
    (categorize_support_level reading_score math_score focus_score).data).headD [])

/-- A family intake row (source lines 33-37). -/
structure FamilyRecord where
  family_id : ℕ
  family_name : String
  child_age : ℕ
  reading_score : ℚ
  math_score : ℚ
  focus_score : ℚ

/-- `generate_mock_families` (source lines 30-39). -/
def generate_mock_families : List FamilyRecord :=
  [ ⟨1, "Johnson Family", 8, 65, 80, 55⟩,
    ⟨2, "Chen Family", 10, 45, 50, 60⟩,
    ⟨3, "Garcia Family", 7, 85, 90, 88⟩,
    ⟨4, "Wilson Family", 9, 40, 35, 45⟩,
    ⟨5, "Brown Family", 11, 70, 65, 72⟩ ]

/-- The structured content of a log `message` f-string (source lines 66-106). -/
inductive LogMessage where
  | batch_started
  | records_found (count : ℕ)
  | categorization_started (reading math focus : ℚ)
  | categorization_complete (result : String)
  | family_processed (family_id : ℕ) (family_name : String)
  | batch_complete (total : ℕ)
deriving DecidableEq

/-- One row of `generate_mock_logs`'s output frame. -/
structure LogEntry where
  timestamp : ℚ
  logger_name : String
  log_level : String
  message : LogMessage

/-- The structured content of a trace `event_details` f-string (source lines
115-141). -/
inductive TraceDetails where
  | emptyDetails
  | categorization_complete (level : String) (areas_count : ℕ) (avg_score : ℚ)
  | family_processed (family_id : ℕ) (category : String)
  | batch_total (total_processed : ℕ)
deriving DecidableEq

/-- One row of `generate_mock_traces`'s output frame. -/
structure TraceEntry where
  timestamp : ℚ
  event_name : String
  event_details : TraceDetails

/-- The structured content of a span `custom_attributes` f-string (source
lines 150-169). -/
inductive SpanAttrs where
  | batch_started (record_count : ℕ)
  | categorize_call (reading math focus : ℚ) (result : String)
  | batch_completed (processed_count : ℕ)
deriving DecidableEq

/-- One row of `generate_mock_spans`'s output frame. -/
structure SpanEntry where
  timestamp : ℚ
  function_name : String
  custom_attributes : SpanAttrs

/-- One row of `generate_mock_metrics`'s output frame. -/
structure MetricEntry where
  timestamp : ℚ
  function_name : String
  metric_name : String
  metric_value : ℚ

/-- The `batch_started` log row (source lines 66-71). -/
def logBatchStartedRow (base : ℚ) : LogEntry :=
  ⟨base, "intake_processor", "INFO", .batch_started⟩

/-- The `records_found` log row (source lines 73-78). -/
def logRecordsFoundRow (base : ℚ) (n : ℕ) : LogEntry :=
  ⟨base + 1, "intake_processor", "INFO", .records_found n⟩

/-- The `batch_complete` log row (source lines 101-106). -/
def logBatchCompleteRow (base : ℚ) (n : ℕ) : LogEntry :=
  ⟨base + 15, "intake_processor", "INFO", .batch_complete n⟩

/-- The three log rows appended for the record at loop index `p.1` (source
lines 80-99); the anchor is `base_time + timedelta(seconds=2 + idx*2)` and the
second and third rows are offset by 500 ms and 1 s. -/
def logGroup (base : ℚ) (p : ℕ × FamilyRecord) : List LogEntry :=
  [ ⟨base + (2 + (p.1 : ℚ) * 2), "support_categorizer", "INFO",
      .categorization_started p.2.reading_score p.2.math_score p.2.focus_score⟩,
    ⟨base + (2 + (p.1 : ℚ) * 2) + 1/2, "support_categorizer", "INFO",
      .categorization_complete
        (categorize_support_level p.2.reading_score p.2.math_score p.2.focus_score)⟩,
    ⟨base + (2 + (p.1 : ℚ) * 2) + 1, "intake_processor", "INFO",
      .family_processed p.2.family_id p.2.family_name⟩ ]

/-- `generate_mock_logs` (source lines 61-108), with the row-append loop
modelled as a fold over the enumerated record list. -/
def generate_mock_logs (base : ℚ) (family_data : List FamilyRecord) : List LogEntry :=
  let logs : List LogEntry :=
    [logBatchStartedRow base, logRecordsFoundRow base family_data.length]
  let logs := family_data.enum.foldl (fun acc p => acc ++ logGroup base p) logs
  logs ++ [logBatchCompleteRow base family_data.length]

/-- The `batch_processing_started` trace row (source lines 115-119). -/
def traceStartRow (base : ℚ) : TraceEntry :=
  ⟨base, "batch_processing_started", .emptyDetails⟩

/-- The `batch_processing_complete` trace row (source lines 137-141). -/
def traceCompleteRow (base : ℚ) (n : ℕ) : TraceEntry :=
  ⟨base + 15, "batch_processing_complete", .batch_total n⟩

/-- The two trace rows appended for the record at loop index `p.1` (source
lines 121-135); offsets 500 ms and 1 s from the anchor. -/
def traceGroup (base : ℚ) (p : ℕ × FamilyRecord) : List TraceEntry :=
  [ ⟨base + (2 + (p.1 : ℚ) * 2) + 1/2, "categorization_complete",
      .categorization_complete
        (traceLevelField p.2.reading_score p.2.math_score p.2.focus_score)
        (traceAreasCount p.2.reading_score p.2.math_score p.2.focus_score)
        (avgScore p.2.reading_score p.2.math_score p.2.focus_score)⟩,
    ⟨base + (2 + (p.1 : ℚ) * 2) + 1, "family_processed",
      .family_processed p.2.family_id
        (categorize_support_level p.2.reading_score p.2.math_score p.2.focus_score)⟩ ]

/-- `generate_mock_traces` (source lines 110-143). -/
def generate_mock_traces (base : ℚ) (family_data : List FamilyRecord) : List TraceEntry :=
  let traces : List TraceEntry := [traceStartRow base]
  let traces := family_data.enum.foldl (fun acc p => acc ++ traceGroup base p) traces
  traces ++ [traceCompleteRow base family_data.length]

/-- The opening span row (source lines 150-154). -/
def spanStartRow (base : ℚ) (n : ℕ) : SpanEntry :=
  ⟨base, "PROCESS_FAMILY_INTAKES", .batch_started n⟩

/-- The closing span row (source lines 165-169). -/
def spanCompleteRow (base : ℚ) (n : ℕ) : SpanEntry :=
  ⟨base + 15, "PROCESS_FAMILY_INTAKES", .batch_completed n⟩

/-- The single span row appended for the record at loop index `p.1` (source
lines 156-163), at the anchor itself. -/
def spanRow (base : ℚ) (p : ℕ × FamilyRecord) : SpanEntry :=
  ⟨base + (2 + (p.1 : ℚ) * 2), "CATEGORIZE_SUPPORT_LEVEL",
    .categorize_call p.2.reading_score p.2.math_score p.2.focus_score
      (categorize_support_level p.2.reading_score p.2.math_score p.2.focus_score)⟩

/-- `generate_mock_spans` (source lines 145-171). -/
def generate_mock_spans (base : ℚ) (family_data : List FamilyRecord) : List SpanEntry :=
  let spans : List SpanEntry := [spanStartRow base family_data.length]
  let spans := family_data.enum.foldl (fun acc p => acc ++ [spanRow base p]) spans
  spans ++ [spanCompleteRow base family_data.length]

/-- Model of `random.uniform(a, b)`: `a + (b - a) * u` for a unit draw `u`. -/
def pyUniform (a b u : ℚ) : ℚ := a + (b - a) * u

/-- Model of `random.randint(a, b)`: an integer of `[a, b]` selected by the
draw `z`, reduced modulo the size of the range. -/
def pyRandint (a b z : ℤ) : ℤ := a + z % (b - a + 1)

/-- Python's round-half-to-even of a rational to the nearest integer. -/
def pyRoundInt (q : ℚ) : ℤ :=
  if q - ⌊q⌋ < 1/2 then ⌊q⌋
  else if 1/2 < q - ⌊q⌋ then ⌊q⌋ + 1
  else if ⌊q⌋ % 2 = 0 then ⌊q⌋ else ⌊q⌋ + 1

/-- Python's `round(x, 3)`. -/
def pyRound3 (q : ℚ) : ℚ := (pyRoundInt (q * 1000) : ℚ) / 1000

/-- The CPU/memory sample pair of the first metric loop (source lines
178-191): cadence `i*1.5` s, CPU drawn from `uniform(0.05, 0.25)` rounded to
3 places, memory from `randint(40000000, 80000000)`. -/
def metricGroupA (base : ℚ) (u : ℕ → ℚ) (z : ℕ → ℤ) (i : ℕ) : List MetricEntry :=
  [ ⟨base + (i : ℚ) * 1.5, "CATEGORIZE_SUPPORT_LEVEL", "process.cpu.utilization",
      pyRound3 (pyUniform 0.05 0.25 (u i))⟩,
    ⟨base + (i : ℚ) * 1.5, "CATEGORIZE_SUPPORT_LEVEL", "process.memory.usage",
      (pyRandint 40000000 80000000 (z i) : ℚ)⟩ ]

/-- The CPU/memory sample pair of the second metric loop (source lines
193-206): cadence `i*3` s, CPU drawn from `uniform(0.10, 0.35)` rounded to 3
places, memory from `randint(60000000, 120000000)`. -/
def metricGroupB (base : ℚ) (u : ℕ → ℚ) (z : ℕ → ℤ) (i : ℕ) : List MetricEntry :=
  [ ⟨base + (i : ℚ) * 3, "PROCESS_FAMILY_INTAKES", "process.cpu.utilization",
      pyRound3 (pyUniform 0.10 0.35 (u (10 + i)))⟩,
    ⟨base + (i : ℚ) * 3, "PROCESS_FAMILY_INTAKES", "process.memory.usage",
      (pyRandint 60000000 120000000 (z (10 + i)) : ℚ)⟩ ]

/-- `generate_mock_metrics` (source lines 173-208): takes no record input;
the draw streams stand for the unseeded global random generator. -/
def generate_mock_metrics (base : ℚ) (u : ℕ → ℚ) (z : ℕ → ℤ) : List MetricEntry :=
  let metrics := (List.range 10).foldl (fun acc i => acc ++ metricGroupA base u z i) []
  metrics ++ (List.range 5).foldl (fun acc i => acc ++ metricGroupB base u z i) []

/-- A log row is one of the three per-record kinds. -/
def IsPerRecordLog (e : LogEntry) : Prop :=
  (∃ r m f, e.message = .categorization_started r m f) ∨
  (∃ s, e.message = .categorization_complete s) ∨
  (∃ i s, e.message = .family_processed i s)

/-- A trace row is one of the two per-record kinds. -/
def IsPerRecordTrace (e : TraceEntry) : Prop :=
  (∃ l c a, e.event_details = .categorization_complete l c a) ∨
  (∃ i s, e.event_details = .family_processed i s)

/-- A span row is the per-record kind. -/
def IsPerRecordSpan (e : SpanEntry) : Prop :=
  ∃ r m f s, e.custom_attributes = .categorize_call r m f s

/-- C1: `categorize_support_level` computes `avg = (reading + math + focus) / 3`
and selects tier Intensive when `avg < 50`, Moderate when `50 ≤ avg < 70`, and
Light Touch when `avg ≥ 70`; the returned string starts with that tier. -/
theorem C1_tier_selection (r m f : ℚ) :
    avgScore r m f = (r + m + f) / 3 ∧
    (avgScore r m f < 50 → supportTier r m f = "Intensive") ∧
    (50 ≤ avgScore r m f → avgScore r m f < 70 → supportTier r m f = "Moderate") ∧
    (70 ≤ avgScore r m f → supportTier r m f = "Light Touch") ∧
    ∃ rest, categorize_support_level r m f = supportTier r m f ++ rest := by
  refine ⟨rfl, fun h => ?_, fun h1 h2 => ?_, fun h => ?_, ?_⟩
  · simp [supportTier, h]
  · simp [supportTier, not_lt.mpr h1, h2]
  · have h50 : ¬ avgScore r m f < 50 := not_lt.mpr (le_trans (by norm_num) h)
    have h70 : ¬ avgScore r m f < 70 := not_lt.mpr h
    simp [supportTier, h50, h70]
  · exact ⟨_, String.append_assoc _ _ _⟩

/-- C1 witness: the three tiers realized at concrete inputs. -/
theorem C1_tier_selection_witness :
    supportTier 40 35 45 = "Intensive" ∧
    supportTier 65 75 55 = "Moderate" ∧
    supportTier 85 90 88 = "Light Touch" :=
  ⟨(C1_tier_selection 40 35 45).2.1 (by norm_num [avgScore]),
   (C1_tier_selection 65 75 55).2.2.1 (by norm_num [avgScore]) (by norm_num [avgScore]),
   (C1_tier_selection 85 90 88).2.2.2.1 (by norm_num [avgScore])⟩

/-- C2 counterexample: at inputs (70, 70, 70) the average is exactly 70 yet the
tier is "Light Touch", not "Moderate" — the `elif avg < 70` comparison is
strict, so average exactly 70 falls to the else branch. -/
theorem C2_boundary_counterexample :
    avgScore 70 70 70 = 70 ∧ supportTier 70 70 70 = "Light Touch" ∧
      supportTier 70 70 70 ≠ "Moderate" := by
  have ht : supportTier 70 70 70 = "Light Touch" := by
    norm_num [supportTier, avgScore]
  exact ⟨by norm_num [avgScore], ht, by rw [ht]; decide⟩

/-- C2 (amended): an average of exactly 50 routes to Moderate, while an average
of exactly 70 routes to Light Touch. -/
theorem C2_boundaries_amended (r m f : ℚ) :
    (avgScore r m f = 50 → supportTier r m f = "Moderate") ∧
    (avgScore r m f = 70 → supportTier r m f = "Light Touch") := by
  constructor <;> intro h <;> norm_num [supportTier, h]

/-- C2 witness: both boundary averages realized at concrete inputs. -/
theorem C2_boundaries_amended_witness :
    supportTier 50 50 50 = "Moderate" ∧ supportTier 70 70 70 = "Light Touch" :=
  ⟨(C2_boundaries_amended 50 50 50).1 (by norm_num [avgScore]),
   (C2_boundaries_amended 70 70 70).2 (by norm_num [avgScore])⟩

/-- The weak-area list is a sublist of the fixed area order, whatever the
scores are. -/
theorem weakAreas_sublist_fixed (r m f : ℚ) :
    List.Sublist (weakAreas r m f) ["Reading", "Math", "Focus"] := by
  have h : ∀ (c : Prop) (inst : Decidable c) (x : String),
      List.Sublist (if c then [x] else []) [x] := by
    intro c inst x; split_ifs <;> simp
  simpa [weakAreas] using
    List.Sublist.append
      (List.Sublist.append (h _ _ "Reading") (h _ _ "Math")) (h _ _ "Focus")

/-- C3: an area name is in the weak-area list iff its score is strictly below
70, and the list is always a sublist of the fixed order
["Reading", "Math", "Focus"], never reordered by score magnitude. -/
theorem C3_weak_area_membership (r m f : ℚ) :
    ("Reading" ∈ weakAreas r m f ↔ r < 70) ∧
    ("Math" ∈ weakAreas r m f ↔ m < 70) ∧
    ("Focus" ∈ weakAreas r m f ↔ f < 70) ∧
    List.Sublist (weakAreas r m f) ["Reading", "Math", "Focus"] := by
  refine ⟨?_, ?_, ?_, weakAreas_sublist_fixed r m f⟩ <;>
    by_cases h1 : r < 70 <;> by_cases h2 : m < 70 <;> by_cases h3 : f < 70 <;>
      simp [weakAreas, h1, h2, h3]

/-- C4: the output is the single string `tier ++ ": " ++ joined-areas`, with
the literal "General Support" in place of the join when the weak-area list is
empty; in particular `categorize_support_level 70 70 70` is exactly
"Light Touch: General Support". -/
theorem C4_output_format (r m f : ℚ) :
    (weakAreas r m f = [] →
      categorize_support_level r m f = supportTier r m f ++ ": General Support") ∧
    (weakAreas r m f ≠ [] →
      categorize_support_level r m f =
        supportTier r m f ++ ": " ++ String.intercalate ", " (weakAreas r m f)) ∧
    categorize_support_level 70 70 70 = "Light Touch: General Support" := by
  have he : weakAreas (70:ℚ) 70 70 = [] := by norm_num [weakAreas]
  have ht : supportTier (70:ℚ) 70 70 = "Light Touch" := by
    norm_num [supportTier, avgScore]
  refine ⟨fun h => ?_, fun h => ?_, ?_⟩
  · rw [categorize_support_level, if_pos h, String.append_assoc]; rfl
  · rw [categorize_support_level, if_neg h]
  · rw [categorize_support_level, if_pos he, ht]; rfl

/-- C4 witness: the two formatting branches realized at concrete inputs. -/
theorem C4_output_format_witness :
    categorize_support_level 70 70 70 = supportTier 70 70 70 ++ ": General Support" ∧
    categorize_support_level 65 75 55 =
      supportTier 65 75 55 ++ ": " ++ String.intercalate ", " (weakAreas 65 75 55) :=
  ⟨(C4_output_format 70 70 70).1 (by norm_num [weakAreas]),
   (C4_output_format 65 75 55).2.1 (by
     rw [show weakAreas (65:ℚ) 75 55 = ["Reading", "Focus"] from by norm_num [weakAreas]]
     decide)⟩

/-- C9: `categorize_support_level` is deterministic — equal inputs yield the
same tier, the same weak-area list and the same output string; the function
reads nothing but its three arguments. -/
theorem C9_deterministic (r₁ m₁ f₁ r₂ m₂ f₂ : ℚ)
    (hr : r₁ = r₂) (hm : m₁ = m₂) (hf : f₁ = f₂) :
    supportTier r₁ m₁ f₁ = supportTier r₂ m₂ f₂ ∧
    weakAreas r₁ m₁ f₁ = weakAreas r₂ m₂ f₂ ∧
    categorize_support_level r₁ m₁ f₁ = categorize_support_level r₂ m₂ f₂ := by
  subst hr hm hf; exact ⟨rfl, rfl, rfl⟩

/-- C9 witness: two calls at the same concrete input agree. -/
theorem C9_deterministic_witness :
    supportTier 65 75 55 = supportTier 65 75 55 ∧
    weakAreas 65 75 55 = weakAreas 65 75 55 ∧
    categorize_support_level 65 75 55 = categorize_support_level 65 75 55 :=
  C9_deterministic 65 75 55 65 75 55 rfl rfl rfl

/-- C10: the inline `areas_count` of `generate_mock_traces` equals the length
of the classifier's weak-area list, and the trace's `level` field — the
classifier output split at ":" — equals the classifier's tier. -/
theorem C10_trace_matches_classifier (r m f : ℚ) :
    traceAreasCount r m f = (weakAreas r m f).length ∧
    traceLevelField r m f = supportTier r m f := by
  constructor
  · unfold traceAreasCount weakAreas
    by_cases hr : r < 70 <;> by_cases hm : m < 70 <;> by_cases hf : f < 70 <;>
      simp [hr, hm, hf, List.filter_cons]
  · unfold traceLevelField categorize_support_level supportTier weakAreas
    split_ifs <;> rfl

/-- A fold that appends a block per element equals the initial list followed
by the flat-map of the blocks. -/
theorem foldl_append_flatMap {α β : Type} (g : α → List β) :
    ∀ (l : List α) (init : List β),
      l.foldl (fun acc p => acc ++ g p) init = init ++ l.flatMap g := by
  intro l
  induction l with
  | nil => intro init; simp
  | cons a t ih =>
    intro init
    simp only [List.foldl_cons, ih, List.flatMap_cons, List.append_assoc]

/-- Length of a flat-map whose blocks all have length `k`. -/
theorem length_flatMap_const {α β : Type} (g : α → List β) (k : ℕ)
    (hg : ∀ p, (g p).length = k) :
    ∀ l : List α, (l.flatMap g).length = k * l.length := by
  intro l
  induction l with
  | nil => simp
  | cons a t ih =>
    simp only [List.flatMap_cons, List.length_append, hg, ih, List.length_cons,
      Nat.mul_succ]
    omega

/-- Extracting the `i`-th block from the flat-map of constant-size blocks
over an enumerated list. -/
theorem flatMap_enumFrom_extract {α β : Type} (g : ℕ × α → List β) (k : ℕ)
    (hg : ∀ p, (g p).length = k) :
    ∀ (l : List α) (n i : ℕ) (hi : i < l.length),
      (((l.enumFrom n).flatMap g).drop (k * i)).take k =
        g (n + i, l.get ⟨i, hi⟩) := by
  intro l
  induction l with
  | nil => intro n i hi; simp at hi
  | cons a t ih =>
    intro n i hi
    cases i with
    | zero =>
      rw [List.enumFrom_cons, List.flatMap_cons, Nat.mul_zero, List.drop_zero,
        List.take_append_of_le_length (le_of_eq (hg _).symm),
        List.take_of_length_le (le_of_eq (hg _))]
      simp
    | succ j =>
      have hj : j < t.length := Nat.lt_of_succ_lt_succ hi
      rw [List.enumFrom_cons, List.flatMap_cons,
        show k * (j + 1) = (g (n, a)).length + k * j from by rw [hg]; ring,
        List.drop_append, ih (n + 1) j hj]
      have hnj : n + 1 + j = n + (j + 1) := by omega
      rw [hnj]
      rfl

/-- Extracting the `i`-th block from the flat-map of constant-size blocks
over `List.range'`. -/
theorem flatMap_range_extract {β : Type} (g : ℕ → List β) (k : ℕ)
    (hg : ∀ i, (g i).length = k) :
    ∀ (n s i : ℕ), i < n →
      (((List.range' s n).flatMap g).drop (k * i)).take k = g (s + i) := by
  intro n
  induction n with
  | zero => intro s i hi; exact absurd hi (Nat.not_lt_zero i)
  | succ m ih =>
    intro s i hi
    rw [List.range'_succ]
    cases i with
    | zero =>
      rw [List.flatMap_cons, Nat.mul_zero, List.drop_zero,
        List.take_append_of_le_length (le_of_eq (hg _).symm),
        List.take_of_length_le (le_of_eq (hg _))]
      simp
    | succ j =>
      have hj : j < m := Nat.lt_of_succ_lt_succ hi
      rw [List.flatMap_cons,
        show k * (j + 1) = (g s).length + k * j from by rw [hg]; ring,
        List.drop_append, ih (s + 1) j hj]
      have hsj : s + 1 + j = s + (j + 1) := by omega
      rw [hsj]

/-- Closed form of `generate_mock_logs`: two bracket rows, the per-record
triplets in input order, and the closing bracket row. -/
theorem generate_mock_logs_eq (base : ℚ) (fd : List FamilyRecord) :
    generate_mock_logs base fd =
      [logBatchStartedRow base, logRecordsFoundRow base fd.length] ++
        fd.enum.flatMap (logGroup base) ++ [logBatchCompleteRow base fd.length] := by
  show fd.enum.foldl (fun acc p => acc ++ logGroup base p)
      [logBatchStartedRow base, logRecordsFoundRow base fd.length] ++
      [logBatchCompleteRow base fd.length] = _
  rw [foldl_append_flatMap]

/-- Closed form of `generate_mock_traces`. -/
theorem generate_mock_traces_eq (base : ℚ) (fd : List FamilyRecord) :
    generate_mock_traces base fd =
      [traceStartRow base] ++ fd.enum.flatMap (traceGroup base) ++
        [traceCompleteRow base fd.length] := by
  show fd.enum.foldl (fun acc p => acc ++ traceGroup base p) [traceStartRow base] ++
      [traceCompleteRow base fd.length] = _
  rw [foldl_append_flatMap]

/-- Closed form of `generate_mock_spans`. -/
theorem generate_mock_spans_eq (base : ℚ) (fd : List FamilyRecord) :
    generate_mock_spans base fd =
      [spanStartRow base fd.length] ++
        fd.enum.flatMap (fun p => [spanRow base p]) ++
        [spanCompleteRow base fd.length] := by
  show fd.enum.foldl (fun acc p => acc ++ [spanRow base p])
      [spanStartRow base fd.length] ++ [spanCompleteRow base fd.length] = _
  rw [foldl_append_flatMap]

/-- Closed form of `generate_mock_metrics`. -/
theorem generate_mock_metrics_eq (base : ℚ) (u : ℕ → ℚ) (z : ℕ → ℤ) :
    generate_mock_metrics base u z =
      (List.range 10).flatMap (metricGroupA base u z) ++
        (List.range 5).flatMap (metricGroupB base u z) := by
  show (List.range 10).foldl (fun acc i => acc ++ metricGroupA base u z i) [] ++
      (List.range 5).foldl (fun acc i => acc ++ metricGroupB base u z i) [] = _
  rw [foldl_append_flatMap, foldl_append_flatMap]
  simp

/-- Extracting the `i`-th per-record block out of a bracketed generator
output. -/
theorem pre_flatMap_post_extract {α β : Type} (pre : List β) (g : ℕ × α → List β)
    (post : List β) (k : ℕ) (hg : ∀ p, (g p).length = k)
    (l : List α) (i : ℕ) (hi : i < l.length) :
    ((pre ++ l.enum.flatMap g ++ post).drop (pre.length + k * i)).take k =
      g (i, l.get ⟨i, hi⟩) := by
  rw [List.append_assoc, List.drop_append]
  have hlen : (l.enum.flatMap g).length = k * l.length := by
    rw [length_flatMap_const g k hg, List.enum_length]
  have hik : k * i + k ≤ k * l.length := by
    have h1 : i + 1 ≤ l.length := hi
    calc k * i + k = k * (i + 1) := by ring
      _ ≤ k * l.length := Nat.mul_le_mul_left k h1
  rw [List.drop_append_of_le_length (by rw [hlen]; omega)]
  rw [List.take_append_of_le_length (by rw [List.length_drop, hlen]; omega)]
  have h2 := flatMap_enumFrom_extract g k hg l 0 i hi
  rw [Nat.zero_add] at h2
  exact h2

/-- C5 counterexample: on the five-record roster the span sequence has one
per-record span row per record (5 in all, 7 rows with the two brackets), not
a pair per record. -/
theorem C5_span_pair_counterexample :
    ((generate_mock_spans 0 generate_mock_families).filter
        (fun e => e.function_name == "CATEGORIZE_SUPPORT_LEVEL")).length = 5 ∧
    ((generate_mock_spans 0 generate_mock_families).filter
        (fun e => e.function_name == "CATEGORIZE_SUPPORT_LEVEL")).length ≠ 10 ∧
    (generate_mock_spans 0 generate_mock_families).length = 7 := by
  have h5 : ((generate_mock_spans 0 generate_mock_families).filter
      (fun e => e.function_name == "CATEGORIZE_SUPPORT_LEVEL")).length = 5 := rfl
  exact ⟨h5, by rw [h5]; decide, rfl⟩

/-- C5 (amended): on N records each generator emits exactly N per-record
groups in input order — a log triplet, a trace pair and a single span row per
record — anchored at `start + 2*index + 2` seconds with intra-record deltas
+0 s, +0.5 s, +1 s for logs, +0.5 s, +1 s for traces and +0 s for spans, and
all timestamps of an earlier record's group are strictly below all timestamps
of a later record's group. -/
theorem C5_per_record_groups_amended (base : ℚ) (fd : List FamilyRecord) :
    (generate_mock_logs base fd).length = 3 * fd.length + 3 ∧
    (generate_mock_traces base fd).length = 2 * fd.length + 2 ∧
    (generate_mock_spans base fd).length = fd.length + 2 ∧
    (∀ (i : ℕ) (hi : i < fd.length),
      ((generate_mock_logs base fd).drop (2 + 3 * i)).take 3 =
          logGroup base (i, fd.get ⟨i, hi⟩) ∧
      ((generate_mock_traces base fd).drop (1 + 2 * i)).take 2 =
          traceGroup base (i, fd.get ⟨i, hi⟩) ∧
      ((generate_mock_spans base fd).drop (1 + i)).take 1 =
          [spanRow base (i, fd.get ⟨i, hi⟩)]) ∧
    (∀ p : ℕ × FamilyRecord,
      (logGroup base p).map LogEntry.timestamp =
        [base + 2 * p.1 + 2, base + 2 * p.1 + 2 + 1/2, base + 2 * p.1 + 2 + 1] ∧
      (traceGroup base p).map TraceEntry.timestamp =
        [base + 2 * p.1 + 2 + 1/2, base + 2 * p.1 + 2 + 1] ∧
      (spanRow base p).timestamp = base + 2 * p.1 + 2) ∧
    (∀ (i j : ℕ) (ri rj : FamilyRecord), i < j →
      (∀ e ∈ logGroup base (i, ri), ∀ e₂ ∈ logGroup base (j, rj),
        e.timestamp < e₂.timestamp) ∧
      (∀ e ∈ traceGroup base (i, ri), ∀ e₂ ∈ traceGroup base (j, rj),
        e.timestamp < e₂.timestamp) ∧
      (spanRow base (i, ri)).timestamp < (spanRow base (j, rj)).timestamp) := by
  have hlog : (generate_mock_logs base fd).length = 3 * fd.length + 3 := by
    rw [generate_mock_logs_eq, List.length_append, List.length_append,
      length_flatMap_const (logGroup base) 3 (fun _ => rfl) fd.enum, List.enum_length]
    simp only [List.length_cons, List.length_nil]
    omega
  have htr : (generate_mock_traces base fd).length = 2 * fd.length + 2 := by
    rw [generate_mock_traces_eq, List.length_append, List.length_append,
      length_flatMap_const (traceGroup base) 2 (fun _ => rfl) fd.enum, List.enum_length]
    simp only [List.length_cons, List.length_nil]
    omega
  have hsp : (generate_mock_spans base fd).length = fd.length + 2 := by
    rw [generate_mock_spans_eq, List.length_append, List.length_append,
      length_flatMap_const (fun p => [spanRow base p]) 1 (fun _ => rfl) fd.enum,
      List.enum_length]
    simp only [List.length_cons, List.length_nil]
    omega
  refine ⟨hlog, htr, hsp, fun i hi => ⟨?_, ?_, ?_⟩, fun p => ⟨?_, ?_, ?_⟩,
    fun i j ri rj hij => ?_⟩
  · rw [generate_mock_logs_eq]
    exact pre_flatMap_post_extract
      [logBatchStartedRow base, logRecordsFoundRow base fd.length] (logGroup base)
      [logBatchCompleteRow base fd.length] 3 (fun _ => rfl) fd i hi
  · rw [generate_mock_traces_eq]
    exact pre_flatMap_post_extract [traceStartRow base] (traceGroup base)
      [traceCompleteRow base fd.length] 2 (fun _ => rfl) fd i hi
  · rw [generate_mock_spans_eq]
    have h := pre_flatMap_post_extract [spanStartRow base fd.length]
      (fun p => [spanRow base p]) [spanCompleteRow base fd.length] 1
      (fun _ => rfl) fd i hi
    rw [one_mul] at h
    exact h
  · simp only [logGroup, List.map_cons, List.map_nil, List.cons.injEq, and_true]
    refine ⟨by ring, by ring, by ring⟩
  · simp only [traceGroup, List.map_cons, List.map_nil, List.cons.injEq, and_true]
    refine ⟨by ring, by ring⟩
  · dsimp only [spanRow]
    ring
  · have hq : (i : ℚ) + 1 ≤ (j : ℚ) := by exact_mod_cast Nat.succ_le_of_lt hij
    refine ⟨?_, ?_, ?_⟩
    · intro e he e₂ he₂
      simp only [logGroup, List.mem_cons, List.not_mem_nil, or_false] at he he₂
      rcases he with rfl | rfl | rfl <;> rcases he₂ with rfl | rfl | rfl <;>
        dsimp only <;> linarith
    · intro e he e₂ he₂
      simp only [traceGroup, List.mem_cons, List.not_mem_nil, or_false] at he he₂
      rcases he with rfl | rfl <;> rcases he₂ with rfl | rfl <;>
        dsimp only <;> linarith
    · dsimp only [spanRow]
      linarith

/-- C5 witness: block extraction and cross-record monotonicity realized on the
five-record roster. -/
theorem C5_per_record_groups_amended_witness :
    ((generate_mock_logs 0 generate_mock_families).drop 2).take 3 =
        logGroup 0 (0, generate_mock_families.get ⟨0, by decide⟩) ∧
    (spanRow 0 (0, generate_mock_families.get ⟨0, by decide⟩)).timestamp <
      (spanRow 0 (1, generate_mock_families.get ⟨1, by decide⟩)).timestamp := by
  have h := C5_per_record_groups_amended 0 generate_mock_families
  exact ⟨(h.2.2.2.1 0 (by decide)).1,
    (h.2.2.2.2.2 0 1 (generate_mock_families.get ⟨0, by decide⟩)
      (generate_mock_families.get ⟨1, by decide⟩) (by decide)).2.2⟩

/-- C6 counterexample: on an empty record list the log sequence has three
rows (a `records_found` row sits between the brackets), and the metric
sequence has its fixed 30 rows — not just the two bracket rows per kind. -/
theorem C6_empty_counterexample :
    (generate_mock_logs 0 []).length = 3 ∧
    (generate_mock_logs 0 []).length ≠ 2 ∧
    (generate_mock_metrics 0 (fun _ => 0) (fun _ => 0)).length = 30 ∧
    (generate_mock_metrics 0 (fun _ => 0) (fun _ => 0)).length ≠ 2 := by
  have h3 : (generate_mock_logs 0 []).length = 3 := rfl
  have h30 : (generate_mock_metrics 0 (fun _ => 0) (fun _ => 0)).length = 30 := rfl
  exact ⟨h3, by rw [h3]; decide, h30, by rw [h30]; decide⟩

/-- C6 (amended): on an empty record list the trace and span sequences are
exactly their two bracket rows; the log sequence is its two opening rows
(batch started, records found with count 0) plus the closing bracket; the
metric sequence is unaffected by records and keeps its fixed 30 rows. -/
theorem C6_empty_input_amended (base : ℚ) (u : ℕ → ℚ) (z : ℕ → ℤ) :
    generate_mock_logs base [] =
      [logBatchStartedRow base, logRecordsFoundRow base 0, logBatchCompleteRow base 0] ∧
    generate_mock_traces base [] = [traceStartRow base, traceCompleteRow base 0] ∧
    generate_mock_spans base [] = [spanStartRow base 0, spanCompleteRow base 0] ∧
    (generate_mock_metrics base u z).length = 30 := by
  refine ⟨rfl, rfl, rfl, ?_⟩
  rw [generate_mock_metrics_eq, List.length_append,
    length_flatMap_const (metricGroupA base u z) 2 (fun _ => rfl) (List.range 10),
    length_flatMap_const (metricGroupB base u z) 2 (fun _ => rfl) (List.range 5),
    List.length_range, List.length_range]

/-- C7: in the log and trace sequences a batch-start row precedes every
per-record row and the batch-complete row follows every per-record row; the
span sequence is bracketed by the batch-start and batch-complete
span-attribute rows around the per-record spans. -/
theorem C7_batch_bracket_events (base : ℚ) (fd : List FamilyRecord) :
    (∃ body, generate_mock_logs base fd =
        logBatchStartedRow base :: logRecordsFoundRow base fd.length ::
          (body ++ [logBatchCompleteRow base fd.length]) ∧
        ∀ e ∈ body, IsPerRecordLog e) ∧
    (∃ body, generate_mock_traces base fd =
        traceStartRow base :: (body ++ [traceCompleteRow base fd.length]) ∧
        ∀ e ∈ body, IsPerRecordTrace e) ∧
    (∃ body, generate_mock_spans base fd =
        spanStartRow base fd.length :: (body ++ [spanCompleteRow base fd.length]) ∧
        ∀ e ∈ body, IsPerRecordSpan e) := by
  refine ⟨⟨fd.enum.flatMap (logGroup base), ?_, ?_⟩,
    ⟨fd.enum.flatMap (traceGroup base), ?_, ?_⟩,
    ⟨fd.enum.flatMap (fun p => [spanRow base p]), ?_, ?_⟩⟩
  · rw [generate_mock_logs_eq]
    simp [List.append_assoc]
  · intro e he
    rw [List.mem_flatMap] at he
    obtain ⟨p, hp, hin⟩ := he
    simp only [logGroup, List.mem_cons, List.not_mem_nil, or_false] at hin
    rcases hin with rfl | rfl | rfl
    · exact Or.inl ⟨_, _, _, rfl⟩
    · exact Or.inr (Or.inl ⟨_, rfl⟩)
    · exact Or.inr (Or.inr ⟨_, _, rfl⟩)
  · rw [generate_mock_traces_eq]
    simp [List.append_assoc]
  · intro e he
    rw [List.mem_flatMap] at he
    obtain ⟨p, hp, hin⟩ := he
    simp only [traceGroup, List.mem_cons, List.not_mem_nil, or_false] at hin
    rcases hin with rfl | rfl
    · exact Or.inl ⟨_, _, _, rfl⟩
    · exact Or.inr ⟨_, _, rfl⟩
  · rw [generate_mock_spans_eq]
    simp [List.append_assoc]
  · intro e he
    rw [List.mem_flatMap] at he
    obtain ⟨p, hp, hin⟩ := he
    simp only [List.mem_cons, List.not_mem_nil, or_false] at hin
    subst hin
    exact ⟨_, _, _, _, rfl⟩

/-- `pyUniform a b` maps a unit draw into `[a, b]`. -/
theorem pyUniform_mem (a b uu : ℚ) (hab : a ≤ b) (h0 : 0 ≤ uu) (h1 : uu ≤ 1) :
    a ≤ pyUniform a b uu ∧ pyUniform a b uu ≤ b := by
  unfold pyUniform
  constructor <;> nlinarith

/-- `pyRandint a b` always lands in `[a, b]`. -/
theorem pyRandint_mem (a b w : ℤ) (hab : a ≤ b) :
    a ≤ pyRandint a b w ∧ pyRandint a b w ≤ b := by
  unfold pyRandint
  have hpos : 0 < b - a + 1 := by omega
  have h1 : 0 ≤ w % (b - a + 1) := Int.emod_nonneg w (by omega)
  have h2 : w % (b - a + 1) < b - a + 1 := Int.emod_lt_of_pos w hpos
  omega

/-- Round-half-to-even stays between any integer bounds enclosing its
argument. -/
theorem pyRoundInt_bounds (a b : ℤ) (q : ℚ) (h1 : (a : ℚ) ≤ q) (h2 : q ≤ (b : ℚ)) :
    a ≤ pyRoundInt q ∧ pyRoundInt q ≤ b := by
  have hfl : a ≤ ⌊q⌋ := Int.le_floor.mpr h1
  have hfu : ⌊q⌋ ≤ b := by
    have h := Int.floor_le_floor h2
    rwa [Int.floor_intCast] at h
  have hlt : q - ⌊q⌋ ≠ 0 → ⌊q⌋ < b := by
    intro hne
    rcases lt_or_eq_of_le h2 with h | h
    · exact Int.floor_lt.mpr h
    · exact absurd (by rw [h, Int.floor_intCast]; ring) hne
  constructor
  · unfold pyRoundInt; split_ifs <;> omega
  · unfold pyRoundInt
    split_ifs with hA hB hC
    · exact hfu
    · have h := hlt (by intro h0; rw [h0] at hB; norm_num at hB)
      omega
    · exact hfu
    · have htie : q - ⌊q⌋ = 1/2 := le_antisymm (not_lt.mp hB) (not_lt.mp hA)
      have h := hlt (by rw [htie]; norm_num)
      omega

/-- `round(x, 3)` stays between thousandth-grid bounds enclosing its
argument. -/
theorem pyRound3_bounds (a b : ℤ) (q : ℚ) (h1 : (a : ℚ) / 1000 ≤ q)
    (h2 : q ≤ (b : ℚ) / 1000) :
    (a : ℚ) / 1000 ≤ pyRound3 q ∧ pyRound3 q ≤ (b : ℚ) / 1000 := by
  obtain ⟨hl, hu⟩ := pyRoundInt_bounds a b (q * 1000) (by linarith) (by linarith)
  have hl' : (a : ℚ) ≤ (pyRoundInt (q * 1000) : ℚ) := by exact_mod_cast hl
  have hu' : ((pyRoundInt (q * 1000)) : ℚ) ≤ (b : ℚ) := by exact_mod_cast hu
  unfold pyRound3
  constructor <;> linarith

/-- The rounded CPU sample of the first metric loop stays in [0.05, 0.25]. -/
theorem cpuA_bounds (uu : ℚ) (h0 : 0 ≤ uu) (h1 : uu ≤ 1) :
    (0.05 : ℚ) ≤ pyRound3 (pyUniform 0.05 0.25 uu) ∧
      pyRound3 (pyUniform 0.05 0.25 uu) ≤ 0.25 := by
  obtain ⟨hl, hu⟩ := pyUniform_mem 0.05 0.25 uu (by norm_num) h0 h1
  obtain ⟨h2, h3⟩ := pyRound3_bounds 50 250 (pyUniform 0.05 0.25 uu)
    (by push_cast; linarith) (by push_cast; linarith)
  push_cast at h2 h3
  constructor <;> linarith

/-- The rounded CPU sample of the second metric loop stays in [0.10, 0.35]. -/
theorem cpuB_bounds (uu : ℚ) (h0 : 0 ≤ uu) (h1 : uu ≤ 1) :
    (0.10 : ℚ) ≤ pyRound3 (pyUniform 0.10 0.35 uu) ∧
      pyRound3 (pyUniform 0.10 0.35 uu) ≤ 0.35 := by
  obtain ⟨hl, hu⟩ := pyUniform_mem 0.10 0.35 uu (by norm_num) h0 h1
  obtain ⟨h2, h3⟩ := pyRound3_bounds 100 350 (pyUniform 0.10 0.35 uu)
    (by push_cast; linarith) (by push_cast; linarith)
  push_cast at h2 h3
  constructor <;> linarith

/-- C8: the metric sequence ignores the record set (the generator takes no
record input); its structure is fixed by the two loop bounds — ten sample
pairs for CATEGORIZE_SUPPORT_LEVEL at 1.5 s cadence, then five for
PROCESS_FAMILY_INTAKES at 3 s cadence, each pairing one CPU and one memory
row — and every CPU value lies in the loop's fixed real range while every
memory value is an integer of the loop's fixed integer range. -/
theorem C8_metrics_structure (base : ℚ) (u : ℕ → ℚ) (z : ℕ → ℤ)
    (hu : ∀ i, 0 ≤ u i ∧ u i ≤ 1) :
    (generate_mock_metrics base u z).length = 30 ∧
    (∀ i : ℕ, i < 10 →
      ((generate_mock_metrics base u z).drop (2 * i)).take 2 =
        metricGroupA base u z i) ∧
    (∀ i : ℕ, i < 5 →
      ((generate_mock_metrics base u z).drop (20 + 2 * i)).take 2 =
        metricGroupB base u z i) ∧
    (∀ i : ℕ,
      (metricGroupA base u z i).map MetricEntry.timestamp =
        [base + i * 1.5, base + i * 1.5] ∧
      (metricGroupA base u z i).map MetricEntry.function_name =
        ["CATEGORIZE_SUPPORT_LEVEL", "CATEGORIZE_SUPPORT_LEVEL"] ∧
      (metricGroupA base u z i).map MetricEntry.metric_name =
        ["process.cpu.utilization", "process.memory.usage"] ∧
      (metricGroupB base u z i).map MetricEntry.timestamp =
        [base + i * 3, base + i * 3] ∧
      (metricGroupB base u z i).map MetricEntry.function_name =
        ["PROCESS_FAMILY_INTAKES", "PROCESS_FAMILY_INTAKES"] ∧
      (metricGroupB base u z i).map MetricEntry.metric_name =
        ["process.cpu.utilization", "process.memory.usage"]) ∧
    (∀ e ∈ generate_mock_metrics base u z,
      (e.metric_name = "process.cpu.utilization" →
        (e.function_name = "CATEGORIZE_SUPPORT_LEVEL" →
          (0.05 : ℚ) ≤ e.metric_value ∧ e.metric_value ≤ 0.25) ∧
        (e.function_name = "PROCESS_FAMILY_INTAKES" →
          (0.10 : ℚ) ≤ e.metric_value ∧ e.metric_value ≤ 0.35)) ∧
      (e.metric_name = "process.memory.usage" →
        (∃ n : ℤ, e.metric_value = (n : ℚ)) ∧
        (e.function_name = "CATEGORIZE_SUPPORT_LEVEL" →
          (40000000 : ℚ) ≤ e.metric_value ∧ e.metric_value ≤ 80000000) ∧
        (e.function_name = "PROCESS_FAMILY_INTAKES" →
          (60000000 : ℚ) ≤ e.metric_value ∧ e.metric_value ≤ 120000000))) := by
  have hlenA : ((List.range 10).flatMap (metricGroupA base u z)).length = 20 := by
    rw [length_flatMap_const (metricGroupA base u z) 2 (fun _ => rfl),
      List.length_range]
  have hlenB : ((List.range 5).flatMap (metricGroupB base u z)).length = 10 := by
    rw [length_flatMap_const (metricGroupB base u z) 2 (fun _ => rfl),
      List.length_range]
  refine ⟨?_, ?_, ?_, ?_, ?_⟩
  · rw [generate_mock_metrics_eq, List.length_append, hlenA, hlenB]
  · intro i hi
    rw [generate_mock_metrics_eq,
      List.drop_append_of_le_length (by rw [hlenA]; omega),
      List.take_append_of_le_length (by rw [List.length_drop, hlenA]; omega)]
    have h := flatMap_range_extract (metricGroupA base u z) 2 (fun _ => rfl) 10 0 i hi
    rw [Nat.zero_add] at h
    rw [List.range_eq_range']
    exact h
  · intro i hi
    rw [generate_mock_metrics_eq,
      show 20 + 2 * i =
          ((List.range 10).flatMap (metricGroupA base u z)).length + 2 * i from by
        rw [hlenA],
      List.drop_append]
    have h := flatMap_range_extract (metricGroupB base u z) 2 (fun _ => rfl) 5 0 i hi
    rw [Nat.zero_add] at h
    rw [List.range_eq_range']
    exact h
  · intro i
    exact ⟨rfl, rfl, rfl, rfl, rfl, rfl⟩
  · intro e he
    rw [generate_mock_metrics_eq, List.mem_append] at he
    rcases he with he | he <;> rw [List.mem_flatMap] at he <;>
      obtain ⟨i, hi, hin⟩ := he
    · simp only [metricGroupA, List.mem_cons, List.not_mem_nil, or_false] at hin
      rcases hin with rfl | rfl
      · dsimp only
        refine ⟨fun _ => ⟨fun _ => ?_, fun hf => absurd hf (by decide)⟩,
          fun hm => absurd hm (by decide)⟩
        exact cpuA_bounds (u i) (hu i).1 (hu i).2
      · dsimp only
        refine ⟨fun hc => absurd hc (by decide),
          fun _ => ⟨⟨pyRandint 40000000 80000000 (z i), rfl⟩, fun _ => ?_,
            fun hf => absurd hf (by decide)⟩⟩
        obtain ⟨h1, h2⟩ := pyRandint_mem 40000000 80000000 (z i) (by norm_num)
        exact ⟨by exact_mod_cast h1, by exact_mod_cast h2⟩
    · simp only [metricGroupB, List.mem_cons, List.not_mem_nil, or_false] at hin
      rcases hin with rfl | rfl
      · dsimp only
        refine ⟨fun _ => ⟨fun hf => absurd hf (by decide), fun _ => ?_⟩,
          fun hm => absurd hm (by decide)⟩
        exact cpuB_bounds (u (10 + i)) (hu (10 + i)).1 (hu (10 + i)).2
      · dsimp only
        refine ⟨fun hc => absurd hc (by decide),
          fun _ => ⟨⟨pyRandint 60000000 120000000 (z (10 + i)), rfl⟩,
            fun hf => absurd hf (by decide), fun _ => ?_⟩⟩
        obtain ⟨h1, h2⟩ := pyRandint_mem 60000000 120000000 (z (10 + i)) (by norm_num)
        exact ⟨by exact_mod_cast h1, by exact_mod_cast h2⟩

/-- C8 witness: the structure realized with the all-zero draw streams. -/
theorem C8_metrics_structure_witness :
    (generate_mock_metrics 0 (fun _ => 0) (fun _ => 0)).length = 30 ∧
    ((generate_mock_metrics 0 (fun _ => 0) (fun _ => 0)).drop 0).take 2 =
      metricGroupA 0 (fun _ => 0) (fun _ => 0) 0 := by
  have h := C8_metrics_structure 0 (fun _ => 0) (fun _ => 0)
    (fun i => by norm_num)
  exact ⟨h.1, h.2.1 0 (by norm_num)⟩
